import Mathlib

/-
Verification development for the omegajail-style sandbox supervisor
(src/main.cpp).  The definitions below are a shallow embedding of the
pieces of main.cpp that the stated properties are about: timespec
arithmetic, the wait-status macros, the meta-init supervise loop with its
ptrace-stop dispatch, the deadline check, the terminal sweep, the
SIGSYS-observer drain, the cgroup failcnt reconciliation, the max-RSS
computation, the meta-record emission, and the stdio redirection hook.

Machine integers are modelled as Nat/Int; the one place where C-level
width matters (the size_t max-RSS computation printed with a signed
conversion) takes an explicit modulus 2 to the 64.  External inputs
(kernel wait results, clock readings, socket reads, cgroup file reads)
are modelled as explicit event parameters.
-/

set_option maxRecDepth 8000

namespace Omegajail

-- Linux signal numbers used by the supervise loop in main.cpp.
def SIGTRAP : Nat := 5
def SIGSTOP : Nat := 19
def SIGXCPU : Nat := 24
def SIGXFSZ : Nat := 25
def SIGSYS : Nat := 31

/-- A struct timespec value: seconds and nanoseconds, both signed. -/
structure Timespec where
  sec : Int
  nsec : Int
deriving DecidableEq, Repr

/-- Embedding of TimespecAdd from main.cpp: add nanoseconds first, carry
into seconds when the sum is strictly greater than 10 to the 9 (the
source condition), then add the seconds of the addend. -/
def TimespecAdd (dst src : Timespec) : Timespec :=
  let nsec0 := dst.nsec + src.nsec
  let carried : Timespec :=
    if nsec0 > 1000000000 then ⟨dst.sec + 1, nsec0 - 1000000000⟩
    else ⟨dst.sec, nsec0⟩
  ⟨carried.sec + src.sec, carried.nsec⟩

/-- Embedding of TimespecSub from main.cpp: subtract nanoseconds first,
borrow from seconds when the difference is negative, then subtract the
seconds of the subtrahend. -/
def TimespecSub (dst src : Timespec) : Timespec :=
  let nsec0 := dst.nsec - src.nsec
  let borrowed : Timespec :=
    if nsec0 < 0 then ⟨dst.sec - 1, nsec0 + 1000000000⟩
    else ⟨dst.sec, nsec0⟩
  ⟨borrowed.sec - src.sec, borrowed.nsec⟩

/-- Embedding of TimespecCmp from main.cpp. -/
def TimespecCmp (a b : Timespec) : Int :=
  if a.sec < b.sec then -1
  else if a.sec > b.sec then 1
  else if a.nsec < b.nsec then -1
  else if a.nsec > b.nsec then 1
  else 0

/-- Specification-side predicate: a timespec is normalized when its
nanosecond part lies in the interval from 0 inclusive to 10 to the 9
exclusive. -/
def Normalized (t : Timespec) : Prop :=
  0 ≤ t.nsec ∧ t.nsec < 1000000000

instance : DecidablePred Normalized := fun t =>
  inferInstanceAs (Decidable (0 ≤ t.nsec ∧ t.nsec < 1000000000))

/-- Specification-side value of a timespec in nanoseconds. -/
def toNanos (t : Timespec) : Int := 1000000000 * t.sec + t.nsec

-- Glibc wait-status macros on a raw wait status, as used by main.cpp.
def wifexited (s : Nat) : Bool := s % 128 == 0
def wifsignaled (s : Nat) : Bool := decide (0 < s % 128) && decide (s % 128 < 127)
def wifstopped (s : Nat) : Bool := s % 256 == 127
def wtermsig (s : Nat) : Nat := s % 128
def wstopsig (s : Nat) : Nat := s / 256 % 256
def wexitstatus (s : Nat) : Nat := s / 256 % 256

/-- A raw status returned by wait3 without WCONTINUED is an exit, a
termination-by-signal, or a stop. -/
def ValidWaitStatus (s : Nat) : Prop :=
  wifexited s = true ∨ wifsignaled s = true ∨ wifstopped s = true

instance : DecidablePred ValidWaitStatus := fun s =>
  inferInstanceAs (Decidable (wifexited s = true ∨ wifsignaled s = true ∨ wifstopped s = true))

/-- Embedding of kSignalMap from main.cpp; the 31 classic Linux signals. -/
def kSignalMap : List (Int × String) :=
  [(1, "SIGHUP"), (2, "SIGINT"), (3, "SIGQUIT"), (4, "SIGILL"), (5, "SIGTRAP"),
   (6, "SIGABRT"), (7, "SIGBUS"), (8, "SIGFPE"), (9, "SIGKILL"), (10, "SIGUSR1"),
   (11, "SIGSEGV"), (12, "SIGUSR2"), (13, "SIGPIPE"), (14, "SIGALRM"), (15, "SIGTERM"),
   (16, "SIGSTKFLT"), (17, "SIGCHLD"), (18, "SIGCONT"), (19, "SIGSTOP"), (20, "SIGTSTP"),
   (21, "SIGTTIN"), (22, "SIGTTOU"), (23, "SIGURG"), (24, "SIGXCPU"), (25, "SIGXFSZ"),
   (26, "SIGVTALRM"), (27, "SIGPROF"), (28, "SIGWINCH"), (29, "SIGIO"), (30, "SIGPWR"),
   (31, "SIGSYS")]

/-- Lookup in kSignalMap, as done for the signal verdict line. -/
def signalName (s : Int) : Option String :=
  (kSignalMap.find? (fun p => p.1 == s)).map (fun p => p.2)

/-- The fields of struct rusage that main.cpp reads. -/
structure Rusage where
  utimeSec : Int
  utimeUsec : Int
  stimeSec : Int
  stimeUsec : Int
  maxrss : Int
deriving DecidableEq, Repr

def zeroRusage : Rusage := ⟨0, 0, 0, 0, 0⟩

/-- One result of a wait3 call: whether the reported pid is the tracked
child, the raw wait status, the si_syscall value PTRACE_GETSIGINFO would
deliver for a SIGSYS stop, and the rusage snapshot. -/
structure WaitEvent where
  isChild : Bool
  status : Nat
  siSyscall : Int
  ru : Rusage
deriving DecidableEq, Repr

/-- The mutable locals of MetaInit that survive the supervise loop. -/
structure SuperviseState where
  attached : Bool
  initExited : Bool
  initExitstatus : Nat
  initExitsignal : Int
  initExitsyscall : Int
  initUsage : Rusage
deriving DecidableEq, Repr

/-- The state of MetaInit just after the fork: nothing recorded yet,
status 0, signal and syscall both unset (minus one). -/
def initialSuperviseState : SuperviseState :=
  { attached := false, initExited := false, initExitstatus := 0,
    initExitsignal := -1, initExitsyscall := -1, initUsage := zeroRusage }

/-- Observable actions the supervise loop performs on a ptrace stop. -/
inductive SideEffect where
  | setOptions
  | getSigInfo
  | killChild
  | contWithSig (sig : Nat)
deriving DecidableEq, Repr

/-- PTRACE_SETOPTIONS is applied on the first observed stop only. -/
def ptraceOpts (st : SuperviseState) : List SideEffect :=
  if st.attached then [] else [SideEffect.setOptions]

/-- Embedding of one iteration of the inner wait3 drain of MetaInit
(main.cpp lines 552 to 601): dispatch a stop by its stop signal
(SIGSYS records si_syscall and kills; SIGXCPU and SIGXFSZ record the
signal and kill; SIGSTOP and SIGTRAP are continued with signal 0; any
other stop is continued delivering the original signal), and record
status and rusage when the tracked child terminates. -/
def superviseEvent (st : SuperviseState) (ev : WaitEvent) : SuperviseState × List SideEffect :=
  if wifstopped ev.status then
    if wstopsig ev.status = SIGSYS then
      ({ st with attached := true, initExitsyscall := ev.siSyscall },
       ptraceOpts st ++ [SideEffect.getSigInfo, SideEffect.killChild])
    else if wstopsig ev.status = SIGXCPU ∨ wstopsig ev.status = SIGXFSZ then
      ({ st with attached := true, initExitsignal := (wstopsig ev.status : Int) },
       ptraceOpts st ++ [SideEffect.killChild])
    else if wstopsig ev.status = SIGSTOP ∨ wstopsig ev.status = SIGTRAP then
      ({ st with attached := true }, ptraceOpts st ++ [SideEffect.contWithSig 0])
    else
      ({ st with attached := true },
       ptraceOpts st ++ [SideEffect.contWithSig (wstopsig ev.status)])
  else if ev.isChild then
    ({ st with initExitstatus := ev.status, initUsage := ev.ru, initExited := true }, [])
  else
    (st, [])

/-- Fold the wait3 drain over the events of one loop iteration. -/
def superviseAll (st : SuperviseState) (events : List WaitEvent) : SuperviseState :=
  events.foldl (fun s e => (superviseEvent s e).1) st

/-- One iteration of the outer do-while loop of MetaInit: whether
sigtimedwait returned minus one (timed out), the wait3 results drained in
this iteration, and the CLOCK_REALTIME reading taken at the end of the
iteration (or right before the break on a timed-out sigtimedwait). -/
structure LoopIter where
  timedOut : Bool
  events : List WaitEvent
  tAfter : Timespec
deriving DecidableEq, Repr

/-- Embedding of the outer supervise loop (main.cpp lines 544 to 603).
Returns the loop-exit state and the final clock reading, or none when the
supplied iteration trace ends before the loop would exit. -/
def runLoopFull (deadline : Timespec) : SuperviseState → List LoopIter → Option (SuperviseState × Timespec)
  | _, [] => none
  | st, iter :: rest =>
    if iter.timedOut then some (st, iter.tAfter)
    else
      if (superviseAll st iter.events).initExited = true ∨
          0 ≤ TimespecCmp iter.tAfter deadline then
        some (superviseAll st iter.events, iter.tAfter)
      else runLoopFull deadline (superviseAll st iter.events) rest

/-- Embedding of the deadline check after the loop (main.cpp lines 605
to 606): when the final clock reading is at or past the deadline, assign
SIGXCPU to init_exitsignal, unconditionally. -/
def afterLoop (deadline : Timespec) (st : SuperviseState) (t : Timespec) : SuperviseState :=
  if 0 ≤ TimespecCmp t deadline then { st with initExitsignal := (SIGXCPU : Int) }
  else st

/-- Embedding of one step of the terminal sweep (main.cpp lines 609 to
615): after the SIGKILL broadcast, every remaining zombie is reaped; the
tracked child's status is captured only when it had not yet been reaped. -/
def sweepEvent (st : SuperviseState) (ev : WaitEvent) : SuperviseState :=
  if st.initExited = true ∨ ev.isChild = false then st
  else { st with initExitstatus := ev.status, initUsage := ev.ru, initExited := true }

def sweepAll (st : SuperviseState) (events : List WaitEvent) : SuperviseState :=
  events.foldl sweepEvent st

/-- Outcome of the epoll_wait call in ReceiveExitSyscall. -/
inductive PollOutcome where
  | pollError
  | pollTimeout
  | pollReady (fd : Int)
deriving DecidableEq, Repr

/-- Outcome of the recv call in ReceiveExitSyscall: an error, or a read
of the given length delivering the given integer when complete. -/
inductive RecvOutcome where
  | recvError
  | recvData (len : Nat) (value : Int)
deriving DecidableEq, Repr

/-- Embedding of ReceiveExitSyscall (main.cpp lines 296 to 342): every
failure of epoll setup, an epoll error, a timeout, a wrong ready fd, a
recv error, a zero-length read, and a short read all map to none; only a
complete 4-byte read yields a value. -/
def ReceiveExitSyscall (socketFd : Int) (epollCreated addedToEpoll : Bool)
    (poll : PollOutcome) (rcv : RecvOutcome) : Option Int :=
  if epollCreated = false then none
  else if addedToEpoll = false then none
  else
    match poll with
    | PollOutcome.pollError => none
    | PollOutcome.pollTimeout => none
    | PollOutcome.pollReady fd =>
      if fd ≠ socketFd then none
      else
        match rcv with
        | RecvOutcome.recvError => none
        | RecvOutcome.recvData len v =>
          if len = 0 then none
          else if len ≠ 4 then none
          else some v

/-- Embedding of the observer drain in MetaInit (main.cpp lines 620 to
626): when the sigsys socket is still open and the read yields a value,
that value is assigned to init_exitsyscall. -/
def drainObserver (st : SuperviseState) (hasSocket : Bool) (received : Option Int) : SuperviseState :=
  if hasSocket then
    match received with
    | some v => { st with initExitsyscall := v }
    | none => st
  else st

/-- Embedding of the v1 memory-cgroup reconciliation (main.cpp lines 628
to 639): when a v1 memory cgroup exists and reading memory.failcnt
succeeds with a value greater than zero, ru_maxrss is overwritten with
memory_limit_in_bytes (the raw byte count, exactly as the source does). -/
def reconcileFailcnt (st : SuperviseState) (hasMemoryCgroup : Bool)
    (failcnt : Option Nat) (memoryLimitInBytes : Int) : SuperviseState :=
  if hasMemoryCgroup then
    match failcnt with
    | some n =>
      if 0 < n then
        { st with initUsage := { st.initUsage with maxrss := memoryLimitInBytes } }
      else st
    | none => st
  else st

/-- Embedding of the max-RSS computation (main.cpp lines 644 to 649):
size_t max_rss is ru_maxrss times 1024 reduced modulo 2 to the 64, with
the VM overhead subtracted only when it does not underflow. -/
def computeRawMaxRss (maxrss : Int) (vmMemorySize : Nat) : Nat :=
  let m : Nat := ((maxrss * 1024) % (2 ^ 64 : Int)).toNat
  if vmMemorySize ≤ m then m - vmMemorySize else 0

/-- The mem value as printed by fprintf with a signed long conversion of
the size_t max_rss value. -/
def printedMem (maxrss : Int) (vmMemorySize : Nat) : Int :=
  let m := computeRawMaxRss maxrss vmMemorySize
  if m < 2 ^ 63 then (m : Int) else (m : Int) - 2 ^ 64

/-- Specification-side mem formula from the spec: the maximum of zero and
ru_maxrss times 1024 minus the VM overhead, in exact integer arithmetic. -/
def specMemValue (maxrss : Int) (vmMemorySize : Nat) : Int :=
  max 0 (maxrss * 1024 - (vmMemorySize : Int))

/-- Embedding of the verdict emission (main.cpp lines 656 to 677): a
recorded exit syscall yields the SIGSYS block; otherwise a signaled wait
status or a recorded exit signal yields the signal block; otherwise an
exited wait status yields the status block. -/
def emitVerdict (status : Nat) (exitsignal exitsyscall : Int)
    (lookupName : Int → Option String) : List (String × String) :=
  if exitsyscall ≠ -1 then
    match lookupName exitsyscall with
    | some n => [("signal", "SIGSYS"), ("syscall", n)]
    | none => [("signal", "SIGSYS"), ("syscall", "#" ++ toString exitsyscall)]
  else if wifsignaled status = true ∨ exitsignal ≠ -1 then
    match signalName (if exitsignal = -1 then (wtermsig status : Int) else exitsignal) with
    | some n => [("signal", n)]
    | none =>
      [("signal_number",
        toString (if exitsignal = -1 then (wtermsig status : Int) else exitsignal))]
  else if wifexited status = true then
    [("status", toString (wexitstatus status))]
  else []

/-- The full meta record as key-value lines (main.cpp lines 651 to 677):
the four timing and memory keys in their fixed order, then the verdict. -/
def metaLines (st : SuperviseState) (t1 : Timespec) (mem : Int)
    (lookupName : Int → Option String) : List (String × String) :=
  [("time", toString (1000000 * st.initUsage.utimeSec + st.initUsage.utimeUsec)),
   ("time-sys", toString (1000000 * st.initUsage.stimeSec + st.initUsage.stimeUsec)),
   ("time-wall", toString ((1000000000 * t1.sec + t1.nsec) / 1000)),
   ("mem", toString mem)]
  ++ emitVerdict st.initExitstatus st.initExitsignal st.initExitsyscall lookupName

/-- Rendering of one meta line: key, colon, value, linefeed. -/
def renderLine (kv : String × String) : String := kv.1 ++ ":" ++ kv.2 ++ "\n"

/-- Rendering of the whole meta record. -/
def renderMeta (lines : List (String × String)) : String :=
  String.join (lines.map renderLine)

/-- The external inputs of one MetaInit run past the fork: the clock
baseline, the wall timeout, the supervise-loop iteration trace, the sweep
results, the final clock reading, the observer-socket state and read, the
v1 memory-cgroup state, and the configured limits. -/
structure MetaInputs where
  t0 : Timespec
  timeout : Timespec
  iters : List LoopIter
  sweepEvents : List WaitEvent
  tEnd : Timespec
  hasSocket : Bool
  observerRecv : Option Int
  hasMemoryCgroup : Bool
  failcnt : Option Nat
  memoryLimitInBytes : Int
  vmMemorySize : Nat

/-- Embedding of the parent half of MetaInit from the fork to the meta
emission: supervise loop, deadline check, terminal sweep, wall-time
subtraction, observer drain, failcnt reconciliation, max-RSS computation,
and the meta record; none when the iteration trace is incomplete. -/
def MetaInitRun (inp : MetaInputs) (lookupName : Int → Option String) :
    Option (List (String × String)) :=
  match runLoopFull (TimespecAdd inp.t0 inp.timeout) initialSuperviseState inp.iters with
  | none => none
  | some (st, t) =>
    some (metaLines
      (reconcileFailcnt
        (drainObserver
          (sweepAll (afterLoop (TimespecAdd inp.t0 inp.timeout) st t) inp.sweepEvents)
          inp.hasSocket inp.observerRecv)
        inp.hasMemoryCgroup inp.failcnt inp.memoryLimitInBytes)
      (TimespecSub inp.tEnd inp.t0)
      (printedMem
        (reconcileFailcnt
          (drainObserver
            (sweepAll (afterLoop (TimespecAdd inp.t0 inp.timeout) st t) inp.sweepEvents)
            inp.hasSocket inp.observerRecv)
          inp.hasMemoryCgroup inp.failcnt inp.memoryLimitInBytes).initUsage.maxrss
        inp.vmMemorySize)
      lookupName)

/-- The redirection triple of the invocation, each entry present when the
corresponding flag was given. -/
structure StdioArgs where
  disableSandboxing : Bool
  stdinRedirect : Option String
  stdoutRedirect : Option String
  stderrRedirect : Option String
deriving DecidableEq, Repr

/-- The fixed line written to the redirected stderr in unsandboxed mode. -/
def warningMessage : String :=
  "WARNING: Running with " ++ "--disable-sandboxing\n"

/-- Embedding of the RedirectStdio hook (main.cpp lines 196 to 245) over
the outcomes of its OpenStdio and umount2 calls (0 for success, negative
errno otherwise).  Returns the hook result and the list of strings
written to fd 2.  In unsandboxed mode, after a successful stderr
redirection the warning line is written best-effort; the sandboxed branch
opens the /mnt/stdio paths, never writes the warning, and detaches the
mount. -/
def RedirectStdio (args : StdioArgs)
    (stdinResult stdoutResult stderrResult umountResult : Int) : Int × List String :=
  if args.disableSandboxing then
    if args.stdinRedirect.isSome = true ∧ stdinResult ≠ 0 then (stdinResult, [])
    else if args.stdoutRedirect.isSome = true ∧ stdoutResult ≠ 0 then (stdoutResult, [])
    else if args.stderrRedirect.isSome = true then
      if stderrResult ≠ 0 then (stderrResult, []) else (0, [warningMessage])
    else (0, [])
  else
    if args.stdinRedirect.isSome = true ∧ stdinResult ≠ 0 then (stdinResult, [])
    else if args.stdoutRedirect.isSome = true ∧ stdoutResult ≠ 0 then (stdoutResult, [])
    else if args.stderrRedirect.isSome = true ∧ stderrResult ≠ 0 then (stderrResult, [])
    else if umountResult ≠ 0 then (umountResult, [])
    else (0, [])

/-- Hypothesis on a supervise-loop trace: a timed-out sigtimedwait only
happens once the deadline has passed (so the clock reading taken right
after it is at or past the deadline), and every drained wait status is a
genuine wait status. -/
def ItersWellFormed (deadline : Timespec) (iters : List LoopIter) : Prop :=
  ∀ iter ∈ iters,
    (iter.timedOut = true → 0 ≤ TimespecCmp iter.tAfter deadline) ∧
    ∀ ev ∈ iter.events, ValidWaitStatus ev.status

instance (deadline : Timespec) (iters : List LoopIter) :
    Decidable (ItersWellFormed deadline iters) :=
  inferInstanceAs (Decidable (∀ iter ∈ iters,
    (iter.timedOut = true → 0 ≤ TimespecCmp iter.tAfter deadline) ∧
    ∀ ev ∈ iter.events, ValidWaitStatus ev.status))

/-- Hypothesis on the sweep results: every status is a genuine wait
status. -/
def SweepWellFormed (events : List WaitEvent) : Prop :=
  ∀ ev ∈ events, ValidWaitStatus ev.status

instance (events : List WaitEvent) : Decidable (SweepWellFormed events) :=
  inferInstanceAs (Decidable (∀ ev ∈ events, ValidWaitStatus ev.status))

/-- A verdict block is one of the four shapes main.cpp can print: the
SIGSYS pair, a single signal line, a single signal_number line, or a
single status line. -/
def IsVerdictBlock (block : List (String × String)) : Prop :=
  (∃ v, block = [("signal", "SIGSYS"), ("syscall", v)]) ∨
  (∃ v, block = [("signal", v)]) ∨
  (∃ v, block = [("signal_number", v)]) ∨
  (∃ v, block = [("status", v)])

/-- Invariant of the supervise loop: once the tracked child has been
reaped, its recorded status is an exit or a termination by signal. -/
def ExitedInv (st : SuperviseState) : Prop :=
  st.initExited = true → wifexited st.initExitstatus = true ∨ wifsignaled st.initExitstatus = true

/-- Claim C6: TimespecAdd is claimed to produce the mathematically
correct normalized sum even when the nanosecond parts sum to exactly 10
to the 9.  Evaluating the embedded code at that boundary shows the carry
is skipped (the source condition is strictly greater-than): the result
keeps nsec equal to 10 to the 9, which is not a normalized pair, even
though both inputs are normalized and the represented total is right.
The normalized result the claim requires would be 6 seconds, 0
nanoseconds. -/
theorem C6_timespec_add_boundary_eval :
    TimespecAdd ⟨3, 500000000⟩ ⟨2, 500000000⟩ = ⟨5, 1000000000⟩ ∧
    Normalized ⟨3, 500000000⟩ ∧ Normalized ⟨2, 500000000⟩ ∧
    ¬ Normalized (TimespecAdd ⟨3, 500000000⟩ ⟨2, 500000000⟩) ∧
    toNanos (TimespecAdd ⟨3, 500000000⟩ ⟨2, 500000000⟩) =
      toNanos ⟨3, 500000000⟩ + toNanos ⟨2, 500000000⟩ ∧
    TimespecAdd ⟨3, 500000000⟩ ⟨2, 500000000⟩ ≠ ⟨6, 0⟩ := by
  decide

/-- Claim C8: in ReceiveExitSyscall, an epoll timeout, a zero-length
read (EOF) and a short read each yield none (rather than a syscall
number or a failure that would prevent meta emission). -/
theorem C8_drain_no_value (socketFd : Int) (epollCreated addedToEpoll : Bool)
    (len : Nat) (v w u : Int) (hlen0 : 0 < len) (hlen4 : len < 4) :
    ReceiveExitSyscall socketFd epollCreated addedToEpoll
      PollOutcome.pollTimeout (RecvOutcome.recvData 4 v) = none ∧
    ReceiveExitSyscall socketFd epollCreated addedToEpoll
      (PollOutcome.pollReady socketFd) (RecvOutcome.recvData 0 w) = none ∧
    ReceiveExitSyscall socketFd epollCreated addedToEpoll
      (PollOutcome.pollReady socketFd) (RecvOutcome.recvData len u) = none := by
  have h0 : len ≠ 0 := by omega
  have h4 : len ≠ 4 := by omega
  refine ⟨?_, ?_, ?_⟩ <;>
    cases epollCreated <;> cases addedToEpoll <;>
      simp [ReceiveExitSyscall, h0, h4]

/-- Witness for claim C8 at concrete inputs (socket fd 7, a short read of
length 2). -/
theorem C8_drain_no_value_w :
    ReceiveExitSyscall 7 true true
      PollOutcome.pollTimeout (RecvOutcome.recvData 4 165) = none ∧
    ReceiveExitSyscall 7 true true
      (PollOutcome.pollReady 7) (RecvOutcome.recvData 0 165) = none ∧
    ReceiveExitSyscall 7 true true
      (PollOutcome.pollReady 7) (RecvOutcome.recvData 2 165) = none :=
  C8_drain_no_value 7 true true 2 165 165 165 (by norm_num) (by norm_num)

/-- Claim C1: the failcnt reconciliation is claimed to replace ru_maxrss
with the memory limit in KiB-equivalent so that the reported mem is
clamped to the configured limit in bytes.  Evaluating the embedded code
on a 64 MiB limit with failcnt 1 and zero VM overhead shows the source
stores the raw byte count into the KiB-unit ru_maxrss field, so the
reported mem is the limit times 1024 (64 GiB), not a value clamped to
the 64 MiB limit. -/
theorem C1_failcnt_unit_eval :
    (reconcileFailcnt ⟨true, true, 9, -1, -1, ⟨0, 0, 0, 0, 13000⟩⟩
        true (some 1) 67108864).initUsage.maxrss = 67108864 ∧
    printedMem 67108864 0 = 68719476736 ∧
    (67108864 : Int) < 68719476736 := by
  decide

/-- Claim C4, counterexample: with ru_maxrss equal to 2 to the 53 (a
value the long field can hold, and one reachable through the failcnt
reassignment from a command-line memory limit), ru_maxrss times 1024
wraps to 2 to the 63 in the size_t computation and is printed as a signed
long, so the reported mem is negative and differs from the exact
max(0, ru_maxrss times 1024 minus vm) formula. -/
theorem C4_mem_overflow_cex :
    printedMem 9007199254740992 0 = -9223372036854775808 ∧
    specMemValue 9007199254740992 0 = 9223372036854775808 ∧
    ¬ (printedMem 9007199254740992 0 = specMemValue 9007199254740992 0 ∧
       0 ≤ printedMem 9007199254740992 0) := by
  decide

/-- Claim C4, amended: the reported mem equals
max(0, ru_maxrss times 1024 minus vm_memory_size) in exact integer
arithmetic, and is nonnegative, whenever ru_maxrss is nonnegative and
ru_maxrss times 1024 stays below 2 to the 63 (no size_t wrap and no
signed reinterpretation on printing); both recorded sources of ru_maxrss
are nonnegative, but the product bound is needed. -/
theorem C4_mem_formula (maxrss : Int) (vm : Nat)
    (h0 : 0 ≤ maxrss) (h1 : maxrss * 1024 < 2 ^ 63) :
    printedMem maxrss vm = specMemValue maxrss vm ∧ 0 ≤ printedMem maxrss vm := by
  have ha0 : 0 ≤ maxrss * 1024 := by positivity
  have hmod : (maxrss * 1024) % (2 ^ 64 : Int) = maxrss * 1024 :=
    Int.emod_eq_of_lt ha0 (lt_trans h1 (by norm_num))
  unfold printedMem computeRawMaxRss specMemValue
  rw [hmod, max_def]
  by_cases hvm : vm ≤ (maxrss * 1024).toNat
  · rw [if_pos hvm]
    split_ifs <;> refine ⟨?_, ?_⟩ <;> push_cast <;> omega
  · rw [if_neg hvm]
    split_ifs <;> refine ⟨?_, ?_⟩ <;> push_cast <;> omega

/-- Witness for claim C4 at a concrete input (13000 KiB of RSS, 50000
bytes of VM overhead). -/
theorem C4_mem_formula_w :
    printedMem 13000 50000 = specMemValue 13000 50000 ∧ 0 ≤ printedMem 13000 50000 :=
  C4_mem_formula 13000 50000 (by norm_num) (by norm_num)

/-- Claim C5, counterexample: the observer drain overwrites a syscall
number that the ptrace loop had already recorded (165) with the value
read from the socket (57); the source assigns whenever the optional has
a value, without checking that init_exitsyscall is still unset. -/
theorem C5_drain_overwrite_cex :
    (drainObserver ⟨true, true, 9, -1, 165, zeroRusage⟩ true (some 57)).initExitsyscall = 57 ∧
    (57 : Int) ≠ 165 := by
  decide

/-- Claim C5, amended: when the observer socket is open and the read
yields a value, that value is assigned to exit_syscall unconditionally,
overwriting any syscall number recorded by the ptrace loop; when the
read yields no value, or the socket was already closed, the state is
unchanged. -/
theorem C5_drain_unconditional (st : SuperviseState) (received : Option Int) :
    (∀ v, received = some v → (drainObserver st true received).initExitsyscall = v) ∧
    (received = none → drainObserver st true received = st) ∧
    drainObserver st false received = st := by
  refine ⟨?_, ?_, ?_⟩
  · intro v hv
    subst hv
    simp [drainObserver]
  · intro hv
    subst hv
    simp [drainObserver]
  · simp [drainObserver]

/-- Witness for claim C5 at a concrete input. -/
theorem C5_drain_unconditional_w :
    (drainObserver ⟨true, true, 9, -1, 165, zeroRusage⟩ true (some 57)).initExitsyscall = 57 :=
  (C5_drain_unconditional ⟨true, true, 9, -1, 165, zeroRusage⟩ (some 57)).1 57 rfl

/-- Claim C9, counterexample: status 8063 is a ptrace stop with stop
signal 31 (SIGSYS), which is none of SIGSTOP, SIGTRAP, SIGXCPU, SIGXFSZ,
so the claim as stated requires the process to be continued delivering
signal 31; the embedded loop body instead reads the signal info, records
the syscall, and kills the process. -/
theorem C9_sigsys_stop_cex :
    wifstopped 8063 = true ∧ wstopsig 8063 = 31 ∧
    ((31 : Nat) ≠ SIGSTOP ∧ (31 : Nat) ≠ SIGTRAP ∧ (31 : Nat) ≠ SIGXCPU ∧ (31 : Nat) ≠ SIGXFSZ) ∧
    (superviseEvent initialSuperviseState ⟨true, 8063, 165, zeroRusage⟩).2 =
      [SideEffect.setOptions, SideEffect.getSigInfo, SideEffect.killChild] ∧
    (superviseEvent initialSuperviseState ⟨true, 8063, 165, zeroRusage⟩).2 ≠
      ptraceOpts initialSuperviseState ++ [SideEffect.contWithSig 31] ∧
    (superviseEvent initialSuperviseState ⟨true, 8063, 165, zeroRusage⟩).1.initExitsyscall = 165 := by
  decide

/-- Claim C9, amended: a ptrace stop is dispatched by its stop signal as
follows: SIGSTOP and SIGTRAP stops are swallowed (continued with signal
0); SIGXCPU and SIGXFSZ stops record the signal as exit_signal and
SIGKILL the process; SIGSYS stops record the si_syscall value as
exit_syscall and SIGKILL the process; any stop whose signal is none of
these five is continued delivering the original signal.  On the first
observed stop PTRACE_SETOPTIONS is applied. -/
theorem C9_stop_dispatch (st : SuperviseState) (ev : WaitEvent)
    (hstop : wifstopped ev.status = true) :
    ((wstopsig ev.status = SIGSTOP ∨ wstopsig ev.status = SIGTRAP) →
      superviseEvent st ev =
        ({ st with attached := true }, ptraceOpts st ++ [SideEffect.contWithSig 0])) ∧
    ((wstopsig ev.status = SIGXCPU ∨ wstopsig ev.status = SIGXFSZ) →
      superviseEvent st ev =
        ({ st with attached := true, initExitsignal := (wstopsig ev.status : Int) },
         ptraceOpts st ++ [SideEffect.killChild])) ∧
    (wstopsig ev.status = SIGSYS →
      superviseEvent st ev =
        ({ st with attached := true, initExitsyscall := ev.siSyscall },
         ptraceOpts st ++ [SideEffect.getSigInfo, SideEffect.killChild])) ∧
    (wstopsig ev.status ≠ SIGSYS → wstopsig ev.status ≠ SIGSTOP → wstopsig ev.status ≠ SIGTRAP →
     wstopsig ev.status ≠ SIGXCPU → wstopsig ev.status ≠ SIGXFSZ →
      superviseEvent st ev =
        ({ st with attached := true },
         ptraceOpts st ++ [SideEffect.contWithSig (wstopsig ev.status)])) := by
  refine ⟨?_, ?_, ?_, ?_⟩
  · rintro (h | h) <;>
      simp [superviseEvent, hstop, h, SIGSYS, SIGSTOP, SIGTRAP, SIGXCPU, SIGXFSZ]
  · rintro (h | h) <;>
      simp [superviseEvent, hstop, h, SIGSYS, SIGSTOP, SIGTRAP, SIGXCPU, SIGXFSZ]
  · intro h
    simp [superviseEvent, hstop, h, SIGSYS, SIGSTOP, SIGTRAP, SIGXCPU, SIGXFSZ]
  · intro h1 h2 h3 h4 h5
    simp [superviseEvent, hstop, h1, h2, h3, h4, h5]

/-- Witness for claim C9 at a concrete SIGSTOP stop (status 4991,
stop signal 19). -/
theorem C9_stop_dispatch_w :
    superviseEvent initialSuperviseState ⟨true, 4991, 0, zeroRusage⟩ =
      ({ initialSuperviseState with attached := true },
       ptraceOpts initialSuperviseState ++ [SideEffect.contWithSig 0]) :=
  (C9_stop_dispatch initialSuperviseState ⟨true, 4991, 0, zeroRusage⟩ (by decide)).1
    (Or.inl (by decide))

/-- Claim C2, counterexample: in a run whose single loop iteration
observes a SIGXFSZ stop (status 6527) and then reads a clock at the
deadline, the loop exits with exit_signal 25 (SIGXFSZ) recorded, yet the
deadline check replaces it with 24 (SIGXCPU): a prior ptrace-observed
signal does not remain the recorded cause. -/
theorem C2_deadline_overwrite_cex :
    (runLoopFull ⟨10, 0⟩ initialSuperviseState
        [⟨false, [⟨true, 6527, 0, zeroRusage⟩], ⟨10, 0⟩⟩]).map
      (fun p => (p.1.initExitsignal, (afterLoop ⟨10, 0⟩ p.1 p.2).initExitsignal)) =
      some (25, 24) := by
  decide

/-- Claim C2, amended: after the supervise loop exits, the deadline path
assigns exit_signal SIGXCPU whenever the final clock reading is at or
past the deadline, unconditionally overwriting any ptrace-observed signal
recorded in the loop; a signal recorded during the loop remains the
recorded cause exactly when the loop exits with the final clock reading
before the deadline. -/
theorem C2_deadline_sigxcpu (deadline : Timespec) (iters : List LoopIter)
    (st : SuperviseState) (t : Timespec)
    (h : runLoopFull deadline initialSuperviseState iters = some (st, t)) :
    (0 ≤ TimespecCmp t deadline →
      (afterLoop deadline st t).initExitsignal = (SIGXCPU : Int)) ∧
    (TimespecCmp t deadline < 0 →
      (afterLoop deadline st t).initExitsignal = st.initExitsignal) := by
  constructor
  · intro hcmp
    simp [afterLoop, hcmp]
  · intro hcmp
    rw [afterLoop, if_neg (by omega)]

/-- Witness for claim C2: a run whose loop iteration records SIGXFSZ and
reaps the SIGKILLed child before the deadline keeps exit_signal 25. -/
theorem C2_deadline_sigxcpu_w :
    (0 ≤ TimespecCmp ⟨1, 0⟩ ⟨10, 0⟩ →
      (afterLoop ⟨10, 0⟩ ⟨true, true, 9, 25, -1, zeroRusage⟩ ⟨1, 0⟩).initExitsignal =
        (SIGXCPU : Int)) ∧
    (TimespecCmp ⟨1, 0⟩ ⟨10, 0⟩ < 0 →
      (afterLoop ⟨10, 0⟩ ⟨true, true, 9, 25, -1, zeroRusage⟩ ⟨1, 0⟩).initExitsignal =
        (⟨true, true, 9, 25, -1, zeroRusage⟩ : SuperviseState).initExitsignal) :=
  C2_deadline_sigxcpu ⟨10, 0⟩
    [⟨false, [⟨true, 6527, 0, zeroRusage⟩, ⟨true, 9, 0, zeroRusage⟩], ⟨1, 0⟩⟩]
    ⟨true, true, 9, 25, -1, zeroRusage⟩ ⟨1, 0⟩ (by decide)

/-- Claim C3: in the verdict emission, a recorded exit syscall (the
recorded values are either unset, written as minus one, or a syscall
number, hence nonnegative) yields the SIGSYS block regardless of the
other causes; otherwise a nonnegative exit signal or a signaled wait
status yields the signal block (signal or signal_number line) even when
the wait status also carries an exit code; only otherwise an exited wait
status yields the status block with the exit code. -/
theorem C3_verdict_precedence (status : Nat) (exitsignal exitsyscall : Int)
    (lookupName : Int → Option String)
    (hsys : exitsyscall = -1 ∨ 0 ≤ exitsyscall)
    (hsig : exitsignal = -1 ∨ 0 ≤ exitsignal) :
    (0 ≤ exitsyscall →
      ∃ v, emitVerdict status exitsignal exitsyscall lookupName =
        [("signal", "SIGSYS"), ("syscall", v)]) ∧
    (exitsyscall < 0 → (0 ≤ exitsignal ∨ wifsignaled status = true) →
      ((∃ v, emitVerdict status exitsignal exitsyscall lookupName = [("signal", v)]) ∨
       (∃ v, emitVerdict status exitsignal exitsyscall lookupName = [("signal_number", v)]))) ∧
    (exitsyscall < 0 → exitsignal < 0 → wifsignaled status = false → wifexited status = true →
      emitVerdict status exitsignal exitsyscall lookupName =
        [("status", toString (wexitstatus status))]) := by
  refine ⟨?_, ?_, ?_⟩
  · intro hpos
    have hne : exitsyscall ≠ -1 := by omega
    unfold emitVerdict
    rw [if_pos hne]
    cases lookupName exitsyscall <;> exact ⟨_, rfl⟩
  · intro hneg hcond
    have heq : exitsyscall = -1 := by rcases hsys with h | h <;> omega
    have hguard : wifsignaled status = true ∨ exitsignal ≠ -1 := by
      rcases hcond with h | h
      · exact Or.inr (by omega)
      · exact Or.inl h
    subst heq
    have hbranch : emitVerdict status exitsignal (-1) lookupName =
        match signalName (if exitsignal = -1 then (wtermsig status : Int) else exitsignal) with
        | some n => [("signal", n)]
        | none =>
          [("signal_number",
            toString (if exitsignal = -1 then (wtermsig status : Int) else exitsignal))] := by
      unfold emitVerdict
      rw [if_neg (by omega : ¬ (-1 : Int) ≠ -1), if_pos hguard]
    rw [hbranch]
    rcases hsn : signalName (if exitsignal = -1 then (wtermsig status : Int) else exitsignal)
      with _ | n
    · exact Or.inr ⟨_, rfl⟩
    · exact Or.inl ⟨n, rfl⟩
  · intro hneg hsg hnsig hex
    have heq : exitsyscall = -1 := by rcases hsys with h | h <;> omega
    have hsigeq : exitsignal = -1 := by rcases hsig with h | h <;> omega
    unfold emitVerdict
    rw [if_neg (by omega : ¬ exitsyscall ≠ -1),
        if_neg (by simp [hnsig, hsigeq]), if_pos hex]

/-- Witness for claim C3 at a concrete input: exit syscall 165 recorded,
no signal, status 0, no name table. -/
theorem C3_verdict_precedence_w :
    ∃ v, emitVerdict 0 (-1) 165 (fun _ => none) =
      [("signal", "SIGSYS"), ("syscall", v)] :=
  (C3_verdict_precedence 0 (-1) 165 (fun _ => none)
    (Or.inr (by norm_num)) (Or.inl rfl)).1 (by norm_num)

/-- Claim C10: in unsandboxed mode, when a stderr redirection is
configured and every redirection the hook performs before and including
the stderr open and dup succeeds, the fixed warning line is written to
the redirected stderr; and when no stderr redirection is configured the
warning line is never written. -/
theorem C10_redirect_warning (args : StdioArgs)
    (stdinResult stdoutResult stderrResult umountResult : Int)
    (hds : args.disableSandboxing = true) :
    ((args.stdinRedirect.isSome = true → stdinResult = 0) →
     (args.stdoutRedirect.isSome = true → stdoutResult = 0) →
     args.stderrRedirect.isSome = true → stderrResult = 0 →
     (RedirectStdio args stdinResult stdoutResult stderrResult umountResult).2 =
       [warningMessage]) ∧
    (args.stderrRedirect = none →
     warningMessage ∉
       (RedirectStdio args stdinResult stdoutResult stderrResult umountResult).2) := by
  constructor
  · intro hin hout herr hok
    unfold RedirectStdio
    rw [if_pos hds]
    rw [if_neg (by intro h; exact h.2 (hin h.1))]
    rw [if_neg (by intro h; exact h.2 (hout h.1))]
    rw [if_pos herr, if_neg (by omega : ¬ stderrResult ≠ 0)]
  · intro hnone
    have hno : args.stderrRedirect.isSome = false := by simp [hnone]
    unfold RedirectStdio
    rw [if_pos hds]
    split_ifs <;> simp_all

/-- Witness for claim C10 at concrete inputs: stderr redirection
configured and succeeding yields the warning write; no stderr
redirection yields no warning write. -/
theorem C10_redirect_warning_w :
    (RedirectStdio ⟨true, none, some "out.txt", some "err.txt"⟩ 0 0 0 0).2 =
      [warningMessage] ∧
    warningMessage ∉ (RedirectStdio ⟨true, some "in.txt", none, none⟩ 0 0 0 0).2 :=
  ⟨(C10_redirect_warning ⟨true, none, some "out.txt", some "err.txt"⟩ 0 0 0 0 rfl).1
      (fun _ => rfl) (fun _ => rfl) rfl rfl,
   (C10_redirect_warning ⟨true, some "in.txt", none, none⟩ 0 0 0 0 rfl).2 rfl⟩

theorem validWaitStatus_not_stopped (s : Nat) (h : ValidWaitStatus s)
    (hns : wifstopped s = false) : wifexited s = true ∨ wifsignaled s = true := by
  rcases h with h | h | h
  · exact Or.inl h
  · exact Or.inr h
  · rw [h] at hns
    cases hns

theorem superviseEvent_exited_inv (st : SuperviseState) (ev : WaitEvent)
    (hev : ValidWaitStatus ev.status) (hst : ExitedInv st) :
    ExitedInv (superviseEvent st ev).1 := by
  unfold superviseEvent
  by_cases hstop : wifstopped ev.status = true
  · rw [if_pos hstop]
    split_ifs <;> exact fun hx => hst hx
  · rw [if_neg hstop]
    by_cases hc : ev.isChild = true
    · rw [if_pos hc]
      intro _
      exact validWaitStatus_not_stopped ev.status hev
        (by revert hstop; cases wifstopped ev.status <;> simp)
    · rw [if_neg hc]
      exact hst

theorem superviseAll_exited_inv (events : List WaitEvent) :
    ∀ st : SuperviseState, (∀ ev ∈ events, ValidWaitStatus ev.status) → ExitedInv st →
      ExitedInv (superviseAll st events) := by
  induction events with
  | nil => exact fun st _ h => h
  | cons ev rest ih =>
    intro st hval hst
    have hstep : superviseAll st (ev :: rest) = superviseAll (superviseEvent st ev).1 rest := rfl
    rw [hstep]
    exact ih _ (fun e he => hval e (List.mem_cons_of_mem _ he))
      (superviseEvent_exited_inv st ev (hval ev (List.mem_cons_self _ _)) hst)

theorem runLoopFull_exited_inv (deadline : Timespec) :
    ∀ (iters : List LoopIter) (st : SuperviseState),
      ItersWellFormed deadline iters → ExitedInv st →
      ∀ st1 t1, runLoopFull deadline st iters = some (st1, t1) →
        ExitedInv st1 ∧ (st1.initExited = true ∨ 0 ≤ TimespecCmp t1 deadline) := by
  intro iters
  induction iters with
  | nil =>
    intro st _ _ st1 t1 h
    cases h
  | cons iter rest ih =>
    intro st hwf hst st1 t1 h
    rw [runLoopFull] at h
    by_cases ht : iter.timedOut = true
    · rw [if_pos ht] at h
      simp only [Option.some.injEq, Prod.mk.injEq] at h
      obtain ⟨h1, h2⟩ := h
      subst h1
      subst h2
      exact ⟨hst, Or.inr ((hwf iter (List.mem_cons_self _ _)).1 ht)⟩
    · rw [if_neg ht] at h
      have hinv1 : ExitedInv (superviseAll st iter.events) :=
        superviseAll_exited_inv iter.events st (hwf iter (List.mem_cons_self _ _)).2 hst
      by_cases hexit : (superviseAll st iter.events).initExited = true ∨
          0 ≤ TimespecCmp iter.tAfter deadline
      · rw [if_pos hexit] at h
        simp only [Option.some.injEq, Prod.mk.injEq] at h
        obtain ⟨h1, h2⟩ := h
        subst h1
        subst h2
        exact ⟨hinv1, hexit⟩
      · rw [if_neg hexit] at h
        exact ih _ (fun i hi => hwf i (List.mem_cons_of_mem _ hi)) hinv1 st1 t1 h

theorem sweepEvent_initExitsignal (st : SuperviseState) (ev : WaitEvent) :
    (sweepEvent st ev).initExitsignal = st.initExitsignal := by
  unfold sweepEvent
  split_ifs <;> rfl

theorem sweepAll_initExitsignal (events : List WaitEvent) :
    ∀ st : SuperviseState, (sweepAll st events).initExitsignal = st.initExitsignal := by
  induction events with
  | nil => exact fun _ => rfl
  | cons ev rest ih =>
    intro st
    have hstep : sweepAll st (ev :: rest) = sweepAll (sweepEvent st ev) rest := rfl
    rw [hstep, ih, sweepEvent_initExitsignal]

theorem sweepAll_of_exited (events : List WaitEvent) :
    ∀ st : SuperviseState, st.initExited = true → sweepAll st events = st := by
  induction events with
  | nil => exact fun _ _ => rfl
  | cons ev rest ih =>
    intro st hex
    have h1 : sweepEvent st ev = st := by
      unfold sweepEvent
      rw [if_pos (Or.inl hex)]
    have hstep : sweepAll st (ev :: rest) = sweepAll (sweepEvent st ev) rest := rfl
    rw [hstep, h1, ih st hex]

theorem drainObserver_fields (st : SuperviseState) (b : Bool) (r : Option Int) :
    (drainObserver st b r).initExitsignal = st.initExitsignal ∧
    (drainObserver st b r).initExitstatus = st.initExitstatus := by
  cases b
  · exact ⟨rfl, rfl⟩
  · cases r <;> exact ⟨rfl, rfl⟩

theorem reconcileFailcnt_fields (st : SuperviseState) (b : Bool) (f : Option Nat) (m : Int) :
    (reconcileFailcnt st b f m).initExitsignal = st.initExitsignal ∧
    (reconcileFailcnt st b f m).initExitstatus = st.initExitstatus ∧
    (reconcileFailcnt st b f m).initExitsyscall = st.initExitsyscall := by
  cases b
  · exact ⟨rfl, rfl, rfl⟩
  · cases f with
    | none => exact ⟨rfl, rfl, rfl⟩
    | some n =>
      by_cases h : 0 < n
      · simp only [reconcileFailcnt, if_pos h]
        exact ⟨rfl, rfl, rfl⟩
      · simp only [reconcileFailcnt, if_neg h]
        exact ⟨rfl, rfl, rfl⟩

theorem metaLines_shape (st : SuperviseState) (t1 : Timespec) (mem : Int)
    (lookupName : Int → Option String)
    (hkey : st.initExitsyscall ≠ -1 ∨ st.initExitsignal ≠ -1 ∨
            wifexited st.initExitstatus = true ∨ wifsignaled st.initExitstatus = true) :
    ∃ tv tsv twv mv block,
      metaLines st t1 mem lookupName =
        ("time", tv) :: ("time-sys", tsv) :: ("time-wall", twv) :: ("mem", mv) :: block ∧
      IsVerdictBlock block := by
  refine ⟨_, _, _, _,
    emitVerdict st.initExitstatus st.initExitsignal st.initExitsyscall lookupName, rfl, ?_⟩
  unfold emitVerdict IsVerdictBlock
  by_cases hsys : st.initExitsyscall ≠ -1
  · rw [if_pos hsys]
    rcases lookupName st.initExitsyscall with _ | n
    · exact Or.inl ⟨_, rfl⟩
    · exact Or.inl ⟨n, rfl⟩
  · rw [if_neg hsys]
    by_cases hsig : wifsignaled st.initExitstatus = true ∨ st.initExitsignal ≠ -1
    · rw [if_pos hsig]
      rcases signalName
          (if st.initExitsignal = -1 then (wtermsig st.initExitstatus : Int)
           else st.initExitsignal) with _ | n
      · exact Or.inr (Or.inr (Or.inl ⟨_, rfl⟩))
      · exact Or.inr (Or.inl ⟨n, rfl⟩)
    · rw [if_neg hsig]
      by_cases hex : wifexited st.initExitstatus = true
      · rw [if_pos hex]
        exact Or.inr (Or.inr (Or.inr ⟨_, rfl⟩))
      · exfalso
        rcases hkey with h | h | h | h
        · exact hsys h
        · exact hsig (Or.inr h)
        · exact hex h
        · exact hsig (Or.inl h)

theorem pair_key_ne {k1 k2 v1 v2 : String} (h : k1 ≠ k2) : (k1, v1) ≠ (k2, v2) :=
  fun he => h (congrArg Prod.fst he)

/-- Claim C7, counterexample: a run whose child is terminated by SIGSYS
(raw status 31, a termination the tracer can miss, for instance a seccomp
kill without a signal-delivery stop) while the observer drain times out
emits a meta record whose verdict is a bare signal SIGSYS line with no
syscall line after it, contradicting the claim that a syscall line
always follows signal SIGSYS. -/
theorem C7_sigsys_without_syscall_cex :
    MetaInitRun
        ⟨⟨0, 0⟩, ⟨10, 0⟩, [⟨false, [⟨true, 31, 0, zeroRusage⟩], ⟨1, 0⟩⟩], [],
         ⟨1, 0⟩, true, none, false, none, -1, 0⟩ (fun _ => none) =
      some [("time", "0"), ("time-sys", "0"), ("time-wall", "1000000"),
            ("mem", "0"), ("signal", "SIGSYS")] ∧
    ("signal", "SIGSYS") ∈
      [(("time" : String), ("0" : String)), ("time-sys", "0"), ("time-wall", "1000000"),
       ("mem", "0"), ("signal", "SIGSYS")] ∧
    ∀ p ∈ [(("time" : String), ("0" : String)), ("time-sys", "0"),
           ("time-wall", "1000000"), ("mem", "0"), ("signal", "SIGSYS")],
      p.1 ≠ "syscall" := by
  decide

/-- Claim C7, amended: under the semantics of sigtimedwait (a timed-out
wait implies the deadline has passed by the following clock read) and of
wait3 (every status is an exit, a termination by signal, or a stop),
every emitted meta record is exactly the four keys time, time-sys,
time-wall, mem in that order followed by exactly one verdict block, which
is one of: a signal SIGSYS line followed by a syscall line; a single
signal line (possibly SIGSYS itself, with no syscall line, when the
child was terminated by SIGSYS with no syscall number recorded); a single
signal_number line; or a single status line.  Whenever a signal SIGSYS
line appears, no status line appears in the record. -/
theorem C7_meta_record_shape (inp : MetaInputs) (lookupName : Int → Option String)
    (hiters : ItersWellFormed (TimespecAdd inp.t0 inp.timeout) inp.iters)
    (lines : List (String × String))
    (hrun : MetaInitRun inp lookupName = some lines) :
    (∃ tv tsv twv mv block,
        lines = ("time", tv) :: ("time-sys", tsv) :: ("time-wall", twv) ::
          ("mem", mv) :: block ∧
        IsVerdictBlock block) ∧
    (("signal", "SIGSYS") ∈ lines → ∀ v, ("status", v) ∉ lines) := by
  unfold MetaInitRun at hrun
  rcases hloop : runLoopFull (TimespecAdd inp.t0 inp.timeout) initialSuperviseState inp.iters
    with _ | p
  · rw [hloop] at hrun
    cases hrun
  · obtain ⟨st, t⟩ := p
    rw [hloop] at hrun
    have hlines : lines =
        metaLines
          (reconcileFailcnt
            (drainObserver
              (sweepAll (afterLoop (TimespecAdd inp.t0 inp.timeout) st t) inp.sweepEvents)
              inp.hasSocket inp.observerRecv)
            inp.hasMemoryCgroup inp.failcnt inp.memoryLimitInBytes)
          (TimespecSub inp.tEnd inp.t0)
          (printedMem
            (reconcileFailcnt
              (drainObserver
                (sweepAll (afterLoop (TimespecAdd inp.t0 inp.timeout) st t) inp.sweepEvents)
                inp.hasSocket inp.observerRecv)
              inp.hasMemoryCgroup inp.failcnt inp.memoryLimitInBytes).initUsage.maxrss
            inp.vmMemorySize)
          lookupName :=
      (Option.some.inj hrun).symm
    obtain ⟨hinv, hdisj⟩ :=
      runLoopFull_exited_inv (TimespecAdd inp.t0 inp.timeout) inp.iters initialSuperviseState
        hiters (fun h => absurd h (by decide)) st t hloop
    have hkey :
        (reconcileFailcnt
          (drainObserver
            (sweepAll (afterLoop (TimespecAdd inp.t0 inp.timeout) st t) inp.sweepEvents)
            inp.hasSocket inp.observerRecv)
          inp.hasMemoryCgroup inp.failcnt inp.memoryLimitInBytes).initExitsyscall ≠ -1 ∨
        (reconcileFailcnt
          (drainObserver
            (sweepAll (afterLoop (TimespecAdd inp.t0 inp.timeout) st t) inp.sweepEvents)
            inp.hasSocket inp.observerRecv)
          inp.hasMemoryCgroup inp.failcnt inp.memoryLimitInBytes).initExitsignal ≠ -1 ∨
        wifexited
          (reconcileFailcnt
            (drainObserver
              (sweepAll (afterLoop (TimespecAdd inp.t0 inp.timeout) st t) inp.sweepEvents)
              inp.hasSocket inp.observerRecv)
            inp.hasMemoryCgroup inp.failcnt inp.memoryLimitInBytes).initExitstatus = true ∨
        wifsignaled
          (reconcileFailcnt
            (drainObserver
              (sweepAll (afterLoop (TimespecAdd inp.t0 inp.timeout) st t) inp.sweepEvents)
              inp.hasSocket inp.observerRecv)
            inp.hasMemoryCgroup inp.failcnt inp.memoryLimitInBytes).initExitstatus = true := by
      by_cases hcmp : 0 ≤ TimespecCmp t (TimespecAdd inp.t0 inp.timeout)
      · refine Or.inr (Or.inl ?_)
        rw [(reconcileFailcnt_fields _ _ _ _).1, (drainObserver_fields _ _ _).1,
            sweepAll_initExitsignal]
        rw [afterLoop, if_pos hcmp]
        simp [SIGXCPU]
      · have hexited : st.initExited = true := by
          rcases hdisj with h | h
          · exact h
          · exact absurd h hcmp
        have hafter : afterLoop (TimespecAdd inp.t0 inp.timeout) st t = st := by
          rw [afterLoop, if_neg hcmp]
        rw [hafter, sweepAll_of_exited inp.sweepEvents st hexited]
        rcases hinv hexited with h | h
        · refine Or.inr (Or.inr (Or.inl ?_))
          rw [(reconcileFailcnt_fields _ _ _ _).2.1, (drainObserver_fields _ _ _).2]
          exact h
        · refine Or.inr (Or.inr (Or.inr ?_))
          rw [(reconcileFailcnt_fields _ _ _ _).2.1, (drainObserver_fields _ _ _).2]
          exact h
    have hshape := metaLines_shape
      (reconcileFailcnt
        (drainObserver
          (sweepAll (afterLoop (TimespecAdd inp.t0 inp.timeout) st t) inp.sweepEvents)
          inp.hasSocket inp.observerRecv)
        inp.hasMemoryCgroup inp.failcnt inp.memoryLimitInBytes)
      (TimespecSub inp.tEnd inp.t0)
      (printedMem
        (reconcileFailcnt
          (drainObserver
            (sweepAll (afterLoop (TimespecAdd inp.t0 inp.timeout) st t) inp.sweepEvents)
            inp.hasSocket inp.observerRecv)
          inp.hasMemoryCgroup inp.failcnt inp.memoryLimitInBytes).initUsage.maxrss
        inp.vmMemorySize)
      lookupName hkey
    rw [← hlines] at hshape
    refine ⟨hshape, ?_⟩
    obtain ⟨tv, tsv, twv, mv, block, hl, hb⟩ := hshape
    intro hmem v hv
    rw [hl] at hmem hv
    simp only [List.mem_cons] at hmem hv
    have hmemb : ("signal", "SIGSYS") ∈ block := by
      rcases hmem with h | h | h | h | h
      · exact absurd h (pair_key_ne (by decide))
      · exact absurd h (pair_key_ne (by decide))
      · exact absurd h (pair_key_ne (by decide))
      · exact absurd h (pair_key_ne (by decide))
      · exact h
    have hvb : ("status", v) ∈ block := by
      rcases hv with h | h | h | h | h
      · exact absurd h (pair_key_ne (by decide))
      · exact absurd h (pair_key_ne (by decide))
      · exact absurd h (pair_key_ne (by decide))
      · exact absurd h (pair_key_ne (by decide))
      · exact h
    rcases hb with ⟨w, hw⟩ | ⟨w, hw⟩ | ⟨w, hw⟩ | ⟨w, hw⟩ <;> subst hw <;>
      simp only [List.mem_cons, List.mem_singleton, List.not_mem_nil, or_false] at hvb hmemb
    · rcases hvb with h | h
      · exact absurd h (pair_key_ne (by decide))
      · exact absurd h (pair_key_ne (by decide))
    · exact absurd hvb (pair_key_ne (by decide))
    · exact absurd hvb (pair_key_ne (by decide))
    · exact absurd hmemb (pair_key_ne (by decide))

/-- Witness for claim C7: a run whose child exits with code 7 (raw
status 1792) before the deadline yields the four keys followed by the
single status line. -/
theorem C7_meta_record_shape_w :
    (∃ tv tsv twv mv block,
        [(("time" : String), ("0" : String)), ("time-sys", "0"), ("time-wall", "1000000"),
         ("mem", "0"), ("status", "7")] =
          ("time", tv) :: ("time-sys", tsv) :: ("time-wall", twv) :: ("mem", mv) :: block ∧
        IsVerdictBlock block) ∧
    (("signal", "SIGSYS") ∈
        [(("time" : String), ("0" : String)), ("time-sys", "0"), ("time-wall", "1000000"),
         ("mem", "0"), ("status", "7")] →
      ∀ v, ("status", v) ∉
        [(("time" : String), ("0" : String)), ("time-sys", "0"), ("time-wall", "1000000"),
         ("mem", "0"), ("status", "7")]) :=
  C7_meta_record_shape
    ⟨⟨0, 0⟩, ⟨10, 0⟩, [⟨false, [⟨true, 1792, 0, zeroRusage⟩], ⟨1, 0⟩⟩], [],
     ⟨1, 0⟩, false, none, false, none, -1, 0⟩ (fun _ => none)
    (by decide)
    [("time", "0"), ("time-sys", "0"), ("time-wall", "1000000"), ("mem", "0"), ("status", "7")]
    (by decide)

end Omegajail
